import Mathlib

/-!
# music-lib: songs catalogue service

A shallow embedding of the Go packages `db` (`src/db/database.go`), `api`
(`src/api/handler.go`, `src/api/types.go`) and `pkg/client`
(`src/pkg/client/swagger.go`), followed by the properties stated in the
specification.

Conventions.
* Go `string` is `String`, so the strings considered are valid UTF-8; Go
  `len(s)` is the number of bytes of the encoding, not of characters.
* Go `int` is `Int`; the only place where its width matters is `strconv.Atoi`,
  which rejects literals outside the 64-bit range.
* Go `error` results are `Option`/`Except` over an enumeration of the messages
  the code builds with `fmt.Errorf`.
* The PostgreSQL table `songs` is a list of rows plus the counter behind the
  auto-assigned primary key. Every statement the repository sends is recorded,
  and whether the server fails a statement is an input of the call.
* What `time.Parse` and `url.ParseRequestURI` accept is a parameter (`Lib`):
  every theorem holds for any behaviour of the two parsers.
-/

namespace MusicLib

/-! ## Go standard library -/

/-- Go `len` on a string: the number of bytes of its UTF-8 encoding. -/
def len (s : String) : Nat := s.utf8ByteSize

/-- An ASCII decimal digit. -/
def isDigit (c : Char) : Bool := decide (48 ≤ c.toNat) && decide (c.toNat ≤ 57)

/-- Value of a run of decimal digits, most significant first. -/
def digitsValue (cs : List Char) : Nat :=
  cs.foldl (fun n c => n * 10 + (c.toNat - 48)) 0

/-- Go `strconv.Atoi` on a 64-bit platform: an optional sign followed by one or
more decimal digits, with a value in `[-2^63, 2^63 - 1]`; `none` stands for a
non-nil error (syntax or range). -/
def Atoi (s : String) : Option Int :=
  let cs := s.data
  let neg : Bool := match cs with
    | c :: _ => decide (c.toNat = 45)
    | [] => false
  let ds : List Char := match cs with
    | c :: rest => if c.toNat = 45 ∨ c.toNat = 43 then rest else cs
    | [] => cs
  if ds.isEmpty then none
  else if !ds.all isDigit then none
  else
    let n := digitsValue ds
    if neg then (if n ≤ 2 ^ 63 then some (-(n : Int)) else none)
    else (if n < 2 ^ 63 then some (n : Int) else none)

/-- Answers of the two standard-library parsers the repository validates with.
`timeParse s` is true when `time.Parse("2006-01-02", s)` returns a nil error,
`parseRequestURI s` is true when `url.ParseRequestURI(s)` returns a nil error. -/
structure Lib where
  timeParse : String → Bool
  parseRequestURI : String → Bool

/-- Go `time.isLeap`. -/
def isLeap (year : Nat) : Bool :=
  decide (year % 4 = 0) && (decide (year % 100 ≠ 0) || decide (year % 400 = 0))

/-- Go `time.daysIn`. -/
def daysIn (month year : Nat) : Nat :=
  if month = 2 then (if isLeap year then 29 else 28)
  else if month = 4 ∨ month = 6 ∨ month = 9 ∨ month = 11 then 30
  else 31

/-- Accept set of Go `time.Parse` for the layout `2006-01-02`: four digits, a
dash, two digits with a month in 1..12, a dash, two digits with a day that
exists in that month of that year, and nothing else. -/
def timeParseYMD (s : String) : Bool :=
  match s.data with
  | [y1, y2, y3, y4, a, m1, m2, b, d1, d2] =>
    let year := digitsValue [y1, y2, y3, y4]
    let month := digitsValue [m1, m2]
    let day := digitsValue [d1, d2]
    [y1, y2, y3, y4, m1, m2, d1, d2].all isDigit
      && decide (a.toNat = 45) && decide (b.toNat = 45)
      && decide (1 ≤ month) && decide (month ≤ 12)
      && decide (1 ≤ day) && decide (day ≤ daysIn month year)
  | _ => false

/-- A subset of the strings `url.ParseRequestURI` accepts, used only to
instantiate `Lib` in closed examples: `/`, or `http://` or `https://` and one
unreserved character, followed by unreserved characters (ASCII letters, digits,
`-`, `.`, `_`, `~`) and slashes. -/
def uriSample (s : String) : Bool :=
  let unreserved (n : Nat) : Bool :=
    (decide (48 ≤ n) && decide (n ≤ 57)) || (decide (65 ≤ n) && decide (n ≤ 90))
      || (decide (97 ≤ n) && decide (n ≤ 122))
      || decide (n = 45) || decide (n = 46) || decide (n = 95) || decide (n = 126)
  let tail (ns : List Nat) : Bool := ns.all (fun n => unreserved n || decide (n = 47))
  match s.data.map Char.toNat with
  | 47 :: rest => tail rest
  | 104 :: 116 :: 116 :: 112 :: 58 :: 47 :: 47 :: c :: rest => unreserved c && tail rest
  | 104 :: 116 :: 116 :: 112 :: 115 :: 58 :: 47 :: 47 :: c :: rest => unreserved c && tail rest
  | _ => false

/-- The library instance used in closed examples. -/
def sampleLib : Lib := ⟨timeParseYMD, uriSample⟩

/-! ## Package `db` -/

/-- Go `db.Song`. -/
structure Song where
  ID : Int
  GroupName : String
  SongName : String
  ReleaseDate : String
  Text : String
  Link : String
  deriving DecidableEq, Repr

/-- The errors the repository returns, one per `fmt.Errorf` message. -/
inductive DbError where
  | required
  | invalidReleaseDate
  | invalidLink
  | invalidSongID
  | failedQuery
  | failedScan
  | invalidSongData
  | rowsIteration
  | notFound (songID : Int)
  | failedGetText
  | failedDelete
  | failedUpdate
  | failedCreate
  deriving DecidableEq, Repr

/-- Text of each repository error, up to the wrapped driver error. -/
def DbError.message : DbError → String
  | .required => "group_name and song_name are required"
  | .invalidReleaseDate => "invalid release_date format, expected YYYY-MM-DD"
  | .invalidLink => "invalid URL format in link"
  | .invalidSongID => "invalid song ID"
  | .failedQuery => "failed to query songs"
  | .failedScan => "failed to scan song"
  | .invalidSongData => "invalid song data: missing group name or song name"
  | .rowsIteration => "error during rows iteration"
  | .notFound songID => "song with ID " ++ toString songID ++ " not found"
  | .failedGetText => "failed to get song text"
  | .failedDelete => "failed to delete song"
  | .failedUpdate => "failed to update song"
  | .failedCreate => "failed to create song"

/-- The SQL statements the repository sends. -/
inductive Stmt where
  | selectSongs (groupPattern songPattern : String) (limit offset : Int)
  | selectText (songID : Int)
  | delete (songID : Int)
  | update (groupName songName releaseDate text link : String) (songID : Int)
  | insert (groupName songName releaseDate text link : String)
  deriving DecidableEq, Repr

/-- The table `songs`: its rows and the next value of the primary-key sequence. -/
structure Store where
  rows : List Song
  nextID : Int
  deriving DecidableEq, Repr

/-- Effect of a statement the server executes successfully. -/
def Store.apply (db : Store) : Stmt → Store
  | .delete songID => { db with rows := db.rows.filter (fun r => decide (r.ID ≠ songID)) }
  | .update groupName songName releaseDate text link songID =>
    { db with rows := db.rows.map (fun r =>
        if r.ID = songID then
          { r with GroupName := groupName, SongName := songName,
                   ReleaseDate := releaseDate, Text := text, Link := link }
        else r) }
  | .insert groupName songName releaseDate text link =>
    { rows := db.rows ++ [⟨db.nextID, groupName, songName, releaseDate, text, link⟩],
      nextID := db.nextID + 1 }
  | .selectSongs _ _ _ _ => db
  | .selectText _ => db

/-- Go `DB.Exec`: `none` when the server fails the statement (the table is then
unchanged), the new table otherwise. -/
def Store.Exec (db : Store) (fails : Bool) (stmt : Stmt) : Option Store :=
  if fails then none else some (db.apply stmt)

/-- What a repository method leaves behind: its Go result, the table after the
call and the statements it sent, in order. -/
structure Outcome (α : Type) where
  result : Except DbError α
  db : Store
  issued : List Stmt

/-- Go `Repository.ValidateSong`; `none` is the nil error. -/
def Repository.ValidateSong (lib : Lib) (song : Song) : Option DbError :=
  if song.GroupName = "" ∨ song.SongName = "" then
    some .required
  else if lib.timeParse song.ReleaseDate = false then
    some .invalidReleaseDate
  else if lib.parseRequestURI song.Link = false then
    some .invalidLink
  else
    none

/-- Answer of the server to the `SELECT` of `GetSongs`: the query fails, or it
yields a cursor. `scans` holds, for each row `rows.Next()` delivers, the song
`rows.Scan` decodes (`none` when `Scan` fails); `iterErr` tells whether
`rows.Err()` is non-nil once `rows.Next()` has returned false. -/
inductive QueryReply where
  | failed
  | rows (scans : List (Option Song)) (iterErr : Bool)

/-- The `for rows.Next()` loop of `GetSongs`, with `songs` the slice built so far. -/
def Repository.scanRows : List (Option Song) → List Song → Except DbError (List Song)
  | [], songs => .ok songs
  | none :: _, _ => .error .failedScan
  | some song :: rest, songs =>
    if song.GroupName = "" ∨ song.SongName = "" then
      .error .invalidSongData
    else
      Repository.scanRows rest (songs ++ [song])

/-- Go `Repository.GetSongs`. -/
def Repository.GetSongs (db : Store) (reply : QueryReply)
    (groupName songName : String) (limit offset : Int) : Outcome (List Song) :=
  let stmt := Stmt.selectSongs ("%" ++ groupName ++ "%") ("%" ++ songName ++ "%") limit offset
  match reply with
  | .failed => ⟨.error .failedQuery, db, [stmt]⟩
  | .rows scans iterErr =>
    match Repository.scanRows scans [] with
    | .error e => ⟨.error e, db, [stmt]⟩
    | .ok songs =>
      if iterErr then ⟨.error .rowsIteration, db, [stmt]⟩
      else ⟨.ok songs, db, [stmt]⟩

/-- Answer of the server to the `SELECT text` of `GetSongText`. -/
inductive RowReply where
  | text (t : String)
  | noRows
  | failed

/-- Go `Repository.GetSongText`. -/
def Repository.GetSongText (db : Store) (reply : RowReply) (songID : Int) : Outcome String :=
  if songID ≤ 0 then ⟨.error .invalidSongID, db, []⟩
  else
    match reply with
    | .text t => ⟨.ok t, db, [.selectText songID]⟩
    | .noRows => ⟨.error (.notFound songID), db, [.selectText songID]⟩
    | .failed => ⟨.error .failedGetText, db, [.selectText songID]⟩

/-- Go `Repository.DeleteSong`. -/
def Repository.DeleteSong (db : Store) (fails : Bool) (songID : Int) : Outcome Unit :=
  if songID ≤ 0 then ⟨.error .invalidSongID, db, []⟩
  else
    match db.Exec fails (.delete songID) with
    | none => ⟨.error .failedDelete, db, [.delete songID]⟩
    | some db' => ⟨.ok (), db', [.delete songID]⟩

/-- Go `Repository.UpdateSong`. -/
def Repository.UpdateSong (lib : Lib) (db : Store) (fails : Bool) (songID : Int)
    (groupName songName releaseDate text link : String) : Outcome Unit :=
  if songID ≤ 0 then ⟨.error .invalidSongID, db, []⟩
  else if groupName = "" ∨ songName = "" then ⟨.error .required, db, []⟩
  else if lib.timeParse releaseDate = false then ⟨.error .invalidReleaseDate, db, []⟩
  else if lib.parseRequestURI link = false then ⟨.error .invalidLink, db, []⟩
  else
    let stmt := Stmt.update groupName songName releaseDate text link songID
    match db.Exec fails stmt with
    | none => ⟨.error .failedUpdate, db, [stmt]⟩
    | some db' => ⟨.ok (), db', [stmt]⟩

/-- Go `Repository.CreateSong`. -/
def Repository.CreateSong (lib : Lib) (db : Store) (fails : Bool) (song : Song) : Outcome Unit :=
  match Repository.ValidateSong lib song with
  | some err => ⟨.error err, db, []⟩
  | none =>
    let stmt := Stmt.insert song.GroupName song.SongName song.ReleaseDate song.Text song.Link
    match db.Exec fails stmt with
    | none => ⟨.error .failedCreate, db, [stmt]⟩
    | some db' => ⟨.ok (), db', [stmt]⟩

/-! ## Package `pkg/client` -/

/-- Go `client.SongDetail`. -/
structure SongDetail where
  ReleaseDate : String
  Text : String
  Link : String
  deriving DecidableEq, Repr

/-- Answer of the lookup service to the `GET` of `FetchSongDetails`: the request
cannot be sent, or a response arrives with a status code and a body that JSON
decoding turns into a `SongDetail` (`none` when decoding fails). -/
inductive HttpReply where
  | transportError
  | response (statusCode : Nat) (body : Option SongDetail)

/-- The errors `FetchSongDetails` returns. -/
inductive ClientError where
  | transport
  | remote (statusCode : Nat)
  | decode
  deriving DecidableEq, Repr

/-- Go `SwaggerClient.FetchSongDetails`. -/
def SwaggerClient.FetchSongDetails (reply : HttpReply) (_group _song : String) :
    Except ClientError SongDetail :=
  match reply with
  | .transportError => .error .transport
  | .response statusCode body =>
    if statusCode ≠ 200 then .error (.remote statusCode)
    else
      match body with
      | none => .error .decode
      | some details => .ok details

/-! ## Package `api` -/

/-- Go `api.AddSongRequest`. -/
structure AddSongRequest where
  Group : String
  Song : String
  deriving DecidableEq, Repr

/-- What a handler writes after the status line. -/
inductive Body where
  | plain (text : String)
  | json (songs : List Song)
  | empty
  deriving DecidableEq, Repr

/-- The HTTP response of a handler. -/
structure Response where
  status : Nat
  body : Body
  deriving DecidableEq, Repr

/-- A call a handler makes to one of its collaborators, the repository (Storage
Accessor) or the lookup client (Enrichment Client), with its arguments and
whether it returned a non-nil error. -/
inductive Call where
  | repoGetSongs (groupName songName : String) (limit offset : Int) (failed : Bool)
  | repoGetSongText (songID : Int) (failed : Bool)
  | repoDeleteSong (songID : Int) (failed : Bool)
  | repoUpdateSong (songID : Int) (groupName songName releaseDate text link : String)
      (failed : Bool)
  | repoCreateSong (song : Song) (failed : Bool)
  | clientFetchSongDetails (group song : String) (failed : Bool)
  deriving DecidableEq, Repr

/-- Whether the recorded call returned a non-nil error. -/
def Call.failed : Call → Bool
  | .repoGetSongs _ _ _ _ f => f
  | .repoGetSongText _ f => f
  | .repoDeleteSong _ f => f
  | .repoUpdateSong _ _ _ _ _ _ f => f
  | .repoCreateSong _ f => f
  | .clientFetchSongDetails _ _ f => f

/-- Whether a Go result carries a non-nil error. -/
def isError {ε α : Type} : Except ε α → Bool
  | .error _ => true
  | .ok _ => false

/-- The run of a handler on one request: the response, the collaborator calls
made, in order, and the table afterwards. -/
structure Handled where
  resp : Response
  calls : List Call
  db : Store

/-- Go `http.Error` with the given message and status code. -/
def httpError (msg : String) (code : Nat) : Response := ⟨code, .plain (msg ++ "\n")⟩

/-- Go `Handler.GetSongs`; the arguments are the values of the query parameters
`group`, `song`, `limit` and `offset` (empty when missing). -/
def Handler.GetSongs (db : Store) (reply : QueryReply)
    (groupName songName limitStr offsetStr : String) : Handled :=
  let limit : Int := match Atoi limitStr with
    | none => 10
    | some limit => if limit ≤ 0 then 10 else limit
  let offset : Int := match Atoi offsetStr with
    | none => 0
    | some offset => if offset < 0 then 0 else offset
  if groupName ≠ "" ∧ len groupName < 3 then
    ⟨httpError "Group name is too short" 400, [], db⟩
  else if songName ≠ "" ∧ len songName < 3 then
    ⟨httpError "Song name is too short" 400, [], db⟩
  else
    let out := Repository.GetSongs db reply groupName songName limit offset
    let call := Call.repoGetSongs groupName songName limit offset (isError out.result)
    match out.result with
    | .error _ => ⟨httpError "Failed to fetch songs" 500, [call], out.db⟩
    | .ok songs => ⟨⟨200, .json songs⟩, [call], out.db⟩

/-- Go `Handler.GetSongText`; `songIDStr` is the path variable `id`. -/
def Handler.GetSongText (db : Store) (reply : RowReply) (songIDStr : String) : Handled :=
  match Atoi songIDStr with
  | none => ⟨httpError "Invalid song ID" 400, [], db⟩
  | some songID =>
    if songID ≤ 0 then ⟨httpError "Invalid song ID" 400, [], db⟩
    else
      let out := Repository.GetSongText db reply songID
      let call := Call.repoGetSongText songID (isError out.result)
      match out.result with
      | .error _ => ⟨httpError "Failed to fetch song text" 500, [call], out.db⟩
      | .ok text => ⟨⟨200, .plain text⟩, [call], out.db⟩

/-- Go `Handler.DeleteSong`; `songIDStr` is the path variable `id`. -/
def Handler.DeleteSong (db : Store) (fails : Bool) (songIDStr : String) : Handled :=
  match Atoi songIDStr with
  | none => ⟨httpError "Invalid song ID" 400, [], db⟩
  | some songID =>
    if songID ≤ 0 then ⟨httpError "Invalid song ID" 400, [], db⟩
    else
      let out := Repository.DeleteSong db fails songID
      let call := Call.repoDeleteSong songID (isError out.result)
      match out.result with
      | .error _ => ⟨httpError "Failed to delete song" 500, [call], out.db⟩
      | .ok _ => ⟨⟨200, .plain "Song deleted successfully"⟩, [call], out.db⟩

/-- Go `Handler.UpdateSong`; `songIDStr` is the path variable `id` and `body`
the result of JSON-decoding the request body into a `db.Song` (`none` when
decoding fails). -/
def Handler.UpdateSong (lib : Lib) (db : Store) (fails : Bool) (songIDStr : String)
    (body : Option Song) : Handled :=
  match Atoi songIDStr with
  | none => ⟨httpError "Invalid song ID" 400, [], db⟩
  | some songID =>
    if songID ≤ 0 then ⟨httpError "Invalid song ID" 400, [], db⟩
    else
      match body with
      | none => ⟨httpError "Invalid request body" 400, [], db⟩
      | some song =>
        let out := Repository.UpdateSong lib db fails songID song.GroupName song.SongName
          song.ReleaseDate song.Text song.Link
        let call := Call.repoUpdateSong songID song.GroupName song.SongName
          song.ReleaseDate song.Text song.Link (isError out.result)
        match out.result with
        | .error _ => ⟨httpError "Failed to update song" 500, [call], out.db⟩
        | .ok _ => ⟨⟨200, .plain "Song updated successfully"⟩, [call], out.db⟩

/-- Go `Handler.AddSong`; `body` is the result of JSON-decoding the request body
into an `AddSongRequest` (`none` when decoding fails). The `Song` literal leaves
`ID` at Go's zero value. -/
def Handler.AddSong (lib : Lib) (db : Store) (http : HttpReply) (fails : Bool)
    (body : Option AddSongRequest) : Handled :=
  match body with
  | none => ⟨httpError "Invalid input" 400, [], db⟩
  | some input =>
    if len input.Group < 3 ∨ len input.Song < 3 then
      ⟨httpError "Group name and song name must be at least 3 characters long" 400, [], db⟩
    else
      let fetched := SwaggerClient.FetchSongDetails http input.Group input.Song
      let fetchCall := Call.clientFetchSongDetails input.Group input.Song (isError fetched)
      match fetched with
      | .error _ => ⟨httpError "Failed to fetch song details" 500, [fetchCall], db⟩
      | .ok songDetails =>
        let song : Song :=
          { ID := 0, GroupName := input.Group, SongName := input.Song,
            ReleaseDate := songDetails.ReleaseDate, Text := songDetails.Text,
            Link := songDetails.Link }
        let out := Repository.CreateSong lib db fails song
        let createCall := Call.repoCreateSong song (isError out.result)
        match out.result with
        | .error _ => ⟨httpError "Failed to save song to DB" 500, [fetchCall, createCall], out.db⟩
        | .ok _ => ⟨⟨201, .empty⟩, [fetchCall, createCall], out.db⟩

/-! ## Sequences of writes -/

/-- One write call on the repository. -/
inductive WriteOp where
  | create (song : Song)
  | update (songID : Int) (groupName songName releaseDate text link : String)
  | delete (songID : Int)
  deriving DecidableEq, Repr

/-- The table after one write call; `fails` tells whether the server fails the
statement the call sends, if it sends one. -/
def WriteOp.run (lib : Lib) (db : Store) (fails : Bool) : WriteOp → Store
  | .create song => (Repository.CreateSong lib db fails song).db
  | .update songID groupName songName releaseDate text link =>
    (Repository.UpdateSong lib db fails songID groupName songName releaseDate text link).db
  | .delete songID => (Repository.DeleteSong db fails songID).db

/-- The table after a sequence of write calls, each with its server verdict. -/
def runWrites (lib : Lib) (db : Store) : List (WriteOp × Bool) → Store
  | [] => db
  | (op, fails) :: rest => runWrites lib (op.run lib db fails) rest

/-- The three conditions of the data model on one row. -/
def RowValid (lib : Lib) (r : Song) : Prop :=
  r.GroupName ≠ "" ∧ r.SongName ≠ "" ∧ lib.timeParse r.ReleaseDate = true
    ∧ lib.parseRequestURI r.Link = true

/-- Every row of the table satisfies the conditions of the data model. -/
def StoreValid (lib : Lib) (db : Store) : Prop := ∀ r ∈ db.rows, RowValid lib r

/-- The status discipline of a handled request: a 400 response comes with no
collaborator call at all, and a collaborator call that returned a failure comes
with a 500 response. -/
def Handled.Disciplined (h : Handled) : Prop :=
  (h.resp.status = 400 → h.calls = [])
    ∧ (∀ c ∈ h.calls, c.failed = true → h.resp.status = 500)

/-- Spec-side reading of "the string is an integer": an optional sign followed by
one or more decimal digits; `v` is the integer so written, of any size. -/
def DenotesInt (s : String) (v : Int) : Prop :=
  ∃ ds : List Char, ds ≠ [] ∧ (∀ c ∈ ds, isDigit c = true)
    ∧ ((s.data = ds ∧ v = (digitsValue ds : Int))
      ∨ (s.data = Char.ofNat 43 :: ds ∧ v = (digitsValue ds : Int))
      ∨ (s.data = Char.ofNat 45 :: ds ∧ v = -(digitsValue ds : Int)))

/-! ## Auxiliary lemmas -/

theorem utf8ByteSize_go_ge (cs : List Char) : cs.length ≤ String.utf8ByteSize.go cs := by
  induction cs with
  | nil => simp [String.utf8ByteSize.go]
  | cons c cs ih =>
    have hc : 0 < c.utf8Size := Char.utf8Size_pos c
    simp only [String.utf8ByteSize.go, List.length_cons]
    omega

/-- A string has at least as many bytes as characters. -/
theorem length_le_len (s : String) : s.length ≤ len s := by
  cases s with
  | mk cs => exact utf8ByteSize_go_ge cs

/-- `UpdateSong` with a positive id is `ValidateSong` followed by the `UPDATE`. -/
theorem updateSong_eq (lib : Lib) (db : Store) (fails : Bool) (songID i : Int)
    (g s d t l : String) (hid : 0 < songID) :
    Repository.UpdateSong lib db fails songID g s d t l =
      match Repository.ValidateSong lib ⟨i, g, s, d, t, l⟩ with
      | some e => ⟨.error e, db, []⟩
      | none =>
        match db.Exec fails (.update g s d t l songID) with
        | none => ⟨.error .failedUpdate, db, [.update g s d t l songID]⟩
        | some db' => ⟨.ok (), db', [.update g s d t l songID]⟩ := by
  have h : ¬ songID ≤ 0 := not_le.mpr hid
  unfold Repository.UpdateSong Repository.ValidateSong
  simp only [h, if_false]
  split_ifs <;> rfl

/-! ## What `Atoi` parses -/

theorem char_eq_of_toNat (c : Char) (n : Nat) (h : c.toNat = n) : c = Char.ofNat n := by
  rw [← h, Char.ofNat_toNat]

theorem digitsValue_append (ds : List Char) (c : Char) :
    digitsValue (ds ++ [c]) = digitsValue ds * 10 + (c.toNat - 48) := by
  simp [digitsValue, List.foldl_append]

theorem atoi_of_denotes (s : String) (v : Int) (h : DenotesInt s v)
    (hlo : -(2 ^ 63 : Int) ≤ v) (hhi : v < 2 ^ 63) : Atoi s = some v := by
  obtain ⟨ds, hne, hdig, hcase⟩ := h
  have hall : ds.all isDigit = true := List.all_eq_true.mpr hdig
  have hemp : ds.isEmpty = false := by
    cases ds with
    | nil => exact absurd rfl hne
    | cons c r => rfl
  rcases hcase with ⟨hs, hv⟩ | ⟨hs, hv⟩ | ⟨hs, hv⟩
  · cases ds with
    | nil => exact absurd rfl hne
    | cons c r =>
      have hc := hdig c (List.mem_cons_self c r)
      simp only [isDigit, Bool.and_eq_true, decide_eq_true_eq] at hc
      have h45 : ¬ c.toNat = 45 := by omega
      have h43 : ¬ c.toNat = 43 := by omega
      have hn : digitsValue (c :: r) < 2 ^ 63 := by
        rw [hv] at hhi; exact_mod_cast hhi
      simp only [Atoi, hs, h45, h43, or_self, if_false, decide_False, hemp, hall,
        Bool.not_true, Bool.false_eq_true, hn, if_true, hv]
  · have hn : digitsValue ds < 2 ^ 63 := by
      rw [hv] at hhi; exact_mod_cast hhi
    have e43 : (Char.ofNat 43).toNat = 43 := by decide
    simp [Atoi, hs, e43, hemp, hall, hv]
    norm_num at hn
    exact hn
  · have hn : digitsValue ds ≤ 2 ^ 63 := by
      rw [hv] at hlo
      have : (digitsValue ds : Int) ≤ 2 ^ 63 := by linarith
      exact_mod_cast this
    have e45 : (Char.ofNat 45).toNat = 45 := by decide
    simp [Atoi, hs, e45, hemp, hall, hv]
    norm_num at hn
    exact hn

theorem denotes_of_atoi (s : String) (v : Int) (h : Atoi s = some v) :
    DenotesInt s v ∧ -(2 ^ 63 : Int) ≤ v ∧ v < 2 ^ 63 := by
  unfold Atoi at h
  cases hcs : s.data with
  | nil => simp [hcs] at h
  | cons c rest =>
    simp only [hcs] at h
    by_cases h45 : c.toNat = 45
    · simp only [h45, true_or, if_true, decide_True] at h
      split_ifs at h with h1 h2 h3
      have hv : v = -(digitsValue rest : Int) := by simpa using h.symm
      refine ⟨⟨rest, ?_, ?_, Or.inr (Or.inr ⟨?_, hv⟩)⟩, ?_, ?_⟩
      · intro h0; simp [h0] at h1
      · intro x hx
        have : rest.all isDigit = true := by simpa using h2
        exact List.all_eq_true.mp this x hx
      · rw [hcs, char_eq_of_toNat c 45 h45]
      · rw [hv]
        have : (digitsValue rest : Int) ≤ 2 ^ 63 := by exact_mod_cast h3
        linarith
      · rw [hv]
        have : (0 : Int) ≤ (digitsValue rest : Int) := Int.natCast_nonneg _
        have h2p : (0 : Int) < 2 ^ 63 := by norm_num
        linarith
    · by_cases h43 : c.toNat = 43
      · have hneg : decide (43 = 45) = false := by decide
        simp only [h43, hneg, or_true, if_true, Bool.false_eq_true, if_false] at h
        split_ifs at h with h1 h2 h3
        have hv : v = (digitsValue rest : Int) := by simpa using h.symm
        refine ⟨⟨rest, ?_, ?_, Or.inr (Or.inl ⟨?_, hv⟩)⟩, ?_, ?_⟩
        · intro h0; simp [h0] at h1
        · intro x hx
          have : rest.all isDigit = true := by simpa using h2
          exact List.all_eq_true.mp this x hx
        · rw [hcs, char_eq_of_toNat c 43 h43]
        · rw [hv]
          have : (0 : Int) ≤ (digitsValue rest : Int) := Int.natCast_nonneg _
          have h2p : (0 : Int) < 2 ^ 63 := by norm_num
          linarith
        · rw [hv]; exact_mod_cast h3
      · have hneg : decide (c.toNat = 45) = false := by simp [h45]
        have hor : ¬ (c.toNat = 45 ∨ c.toNat = 43) := fun h0 => h0.elim h45 h43
        simp only [hneg, if_neg hor, Bool.false_eq_true, if_false] at h
        split_ifs at h with h1 h2 h3
        have hv : v = (digitsValue (c :: rest) : Int) := by simpa using h.symm
        refine ⟨⟨c :: rest, by simp, ?_, Or.inl ⟨hcs, hv⟩⟩, ?_, ?_⟩
        · intro x hx
          have : (c :: rest).all isDigit = true := by simpa using h2
          exact List.all_eq_true.mp this x hx
        · rw [hv]
          have : (0 : Int) ≤ (digitsValue (c :: rest) : Int) := Int.natCast_nonneg _
          have h2p : (0 : Int) < 2 ^ 63 := by norm_num
          linarith
        · rw [hv]; exact_mod_cast h3

theorem denotesInt_unique (s : String) (v w : Int) (hv : DenotesInt s v)
    (hw : DenotesInt s w) : v = w := by
  obtain ⟨ds, hne, hd, h⟩ := hv
  obtain ⟨es, hne', he, h'⟩ := hw
  have plus : isDigit (Char.ofNat 43) = false := by decide
  have minus : isDigit (Char.ofNat 45) = false := by decide
  have signs : Char.ofNat 43 ≠ Char.ofNat 45 := by decide
  have headDigit : ∀ (xs : List Char) (c : Char) (r : List Char),
      (∀ x ∈ xs, isDigit x = true) → xs = c :: r → isDigit c = true := by
    intro xs c r hx e
    exact hx c (by rw [e]; exact List.mem_cons_self c r)
  rcases h with ⟨a, b⟩ | ⟨a, b⟩ | ⟨a, b⟩ <;> rcases h' with ⟨a', b'⟩ | ⟨a', b'⟩ | ⟨a', b'⟩
  · have : ds = es := a.symm.trans a'
    rw [b, b', this]
  · have := headDigit ds _ _ hd (a.symm.trans a')
    rw [plus] at this; exact absurd this (by decide)
  · have := headDigit ds _ _ hd (a.symm.trans a')
    rw [minus] at this; exact absurd this (by decide)
  · have := headDigit es _ _ he (a'.symm.trans a)
    rw [plus] at this; exact absurd this (by decide)
  · have : ds = es := (List.cons.inj (a.symm.trans a')).2
    rw [b, b', this]
  · exact absurd (List.cons.inj (a.symm.trans a')).1 signs
  · have := headDigit es _ _ he (a'.symm.trans a)
    rw [minus] at this; exact absurd this (by decide)
  · exact absurd (List.cons.inj (a'.symm.trans a)).1 signs
  · have : ds = es := (List.cons.inj (a.symm.trans a')).2
    rw [b, b', this]

/-- `Atoi` fails on a string that is no integer. -/
theorem atoi_not_integer (s : String) (h : ¬ ∃ v, DenotesInt s v) : Atoi s = none := by
  cases ha : Atoi s with
  | none => rfl
  | some w => exact absurd ⟨w, (denotes_of_atoi s w ha).1⟩ h

/-- `Atoi` fails on an integer outside the 64-bit range. -/
theorem atoi_out_of_range (s : String) (v : Int) (h : DenotesInt s v)
    (hout : v < -(2 ^ 63 : Int) ∨ 2 ^ 63 ≤ v) : Atoi s = none := by
  cases ha : Atoi s with
  | none => rfl
  | some w =>
    obtain ⟨hw, hlo, hhi⟩ := denotes_of_atoi s w ha
    have := denotesInt_unique s v w h hw
    subst this
    rcases hout with h1 | h1
    · exact absurd hlo (not_le.mpr h1)
    · exact absurd hhi (not_lt.mpr h1)

/-- The value `GetSongs` passes as limit, from what `Atoi` returns. -/
theorem limit_of_atoi (s : String) :
    ((¬ ∃ v, DenotesInt s v) →
      (match Atoi s with
        | none => (10 : Int)
        | some limit => if limit ≤ 0 then 10 else limit) = 10)
    ∧ (∀ v : Int, DenotesInt s v → v ≤ 0 →
      (match Atoi s with
        | none => (10 : Int)
        | some limit => if limit ≤ 0 then 10 else limit) = 10)
    ∧ (∀ v : Int, DenotesInt s v → 2 ^ 63 ≤ v →
      (match Atoi s with
        | none => (10 : Int)
        | some limit => if limit ≤ 0 then 10 else limit) = 10)
    ∧ (∀ v : Int, DenotesInt s v → 0 < v → v < 2 ^ 63 →
      (match Atoi s with
        | none => (10 : Int)
        | some limit => if limit ≤ 0 then 10 else limit) = v) := by
  refine ⟨?_, ?_, ?_, ?_⟩
  · intro h
    rw [atoi_not_integer s h]
  · intro v h hv
    by_cases hlo : -(2 ^ 63 : Int) ≤ v
    · rw [atoi_of_denotes s v h hlo (lt_of_le_of_lt hv (by norm_num))]
      simp [hv]
    · rw [atoi_out_of_range s v h (Or.inl (not_le.mp hlo))]
  · intro v h hv
    rw [atoi_out_of_range s v h (Or.inr hv)]
  · intro v h hv hhi
    rw [atoi_of_denotes s v h (le_trans (by norm_num) hv.le) hhi]
    simp [not_le.mpr hv]

/-- The value `GetSongs` passes as offset, from what `Atoi` returns. -/
theorem offset_of_atoi (s : String) :
    ((¬ ∃ v, DenotesInt s v) →
      (match Atoi s with
        | none => (0 : Int)
        | some offset => if offset < 0 then 0 else offset) = 0)
    ∧ (∀ v : Int, DenotesInt s v → v < 0 →
      (match Atoi s with
        | none => (0 : Int)
        | some offset => if offset < 0 then 0 else offset) = 0)
    ∧ (∀ v : Int, DenotesInt s v → 2 ^ 63 ≤ v →
      (match Atoi s with
        | none => (0 : Int)
        | some offset => if offset < 0 then 0 else offset) = 0)
    ∧ (∀ v : Int, DenotesInt s v → 0 ≤ v → v < 2 ^ 63 →
      (match Atoi s with
        | none => (0 : Int)
        | some offset => if offset < 0 then 0 else offset) = v) := by
  refine ⟨?_, ?_, ?_, ?_⟩
  · intro h
    rw [atoi_not_integer s h]
  · intro v h hv
    by_cases hlo : -(2 ^ 63 : Int) ≤ v
    · rw [atoi_of_denotes s v h hlo (lt_trans hv (by norm_num))]
      simp [hv]
    · rw [atoi_out_of_range s v h (Or.inl (not_le.mp hlo))]
  · intro v h hv
    rw [atoi_out_of_range s v h (Or.inr hv)]
  · intro v h hv hhi
    rw [atoi_of_denotes s v h (le_trans (by norm_num) hv) hhi]
    simp [not_lt.mpr hv]

/-! ## Validation -/

/-- C1: validation checks required-field emptiness first, then the release-date
format, then the link format, and the first failing check decides the failure,
in `ValidateSong` (hence in `CreateSong`) and in `UpdateSong` for every id > 0:
an empty group or song name gives the "required" error whatever the date and
link are; otherwise a rejected release date gives the date-format error whatever
the link is; otherwise a rejected link gives the URL error; otherwise validation
succeeds (`ValidateSong` returns nil and `UpdateSong` goes on to send its
`UPDATE`). -/
theorem validation_order (lib : Lib) (db : Store) (fails : Bool) (songID i : Int)
    (g s d t l : String) (hid : 0 < songID) :
    ((g = "" ∨ s = "") →
      Repository.ValidateSong lib ⟨i, g, s, d, t, l⟩ = some .required
      ∧ (Repository.CreateSong lib db fails ⟨i, g, s, d, t, l⟩).result = .error .required
      ∧ (Repository.UpdateSong lib db fails songID g s d t l).result = .error .required)
    ∧ (g ≠ "" → s ≠ "" → lib.timeParse d = false →
      Repository.ValidateSong lib ⟨i, g, s, d, t, l⟩ = some .invalidReleaseDate
      ∧ (Repository.CreateSong lib db fails ⟨i, g, s, d, t, l⟩).result
          = .error .invalidReleaseDate
      ∧ (Repository.UpdateSong lib db fails songID g s d t l).result
          = .error .invalidReleaseDate)
    ∧ (g ≠ "" → s ≠ "" → lib.timeParse d = true → lib.parseRequestURI l = false →
      Repository.ValidateSong lib ⟨i, g, s, d, t, l⟩ = some .invalidLink
      ∧ (Repository.CreateSong lib db fails ⟨i, g, s, d, t, l⟩).result = .error .invalidLink
      ∧ (Repository.UpdateSong lib db fails songID g s d t l).result = .error .invalidLink)
    ∧ (g ≠ "" → s ≠ "" → lib.timeParse d = true → lib.parseRequestURI l = true →
      Repository.ValidateSong lib ⟨i, g, s, d, t, l⟩ = none
      ∧ (Repository.CreateSong lib db fails ⟨i, g, s, d, t, l⟩).issued
          = [.insert g s d t l]
      ∧ (Repository.UpdateSong lib db fails songID g s d t l).issued
          = [.update g s d t l songID]) := by
  have h : ¬ songID ≤ 0 := not_le.mpr hid
  refine ⟨?_, ?_, ?_, ?_⟩
  · intro h1
    simp [Repository.ValidateSong, Repository.CreateSong, Repository.UpdateSong, h, h1]
  · intro h1 h2 h3
    simp [Repository.ValidateSong, Repository.CreateSong, Repository.UpdateSong, h, h1, h2, h3]
  · intro h1 h2 h3 h4
    simp [Repository.ValidateSong, Repository.CreateSong, Repository.UpdateSong, h, h1, h2, h3,
      h4]
  · intro h1 h2 h3 h4
    cases fails <;>
      simp [Repository.ValidateSong, Repository.CreateSong, Repository.UpdateSong, Store.Exec, h,
        h1, h2, h3, h4]

/-- Instance of `validation_order`: a song with a month-first date and a link
that is not a URL is refused for its date by both paths. -/
theorem validation_order_witness :
    (0 : Int) < 5
    ∧ Repository.ValidateSong sampleLib ⟨0, "Muse", "Uprising", "09-14-2009", "", "nowhere"⟩
        = some .invalidReleaseDate
    ∧ (Repository.CreateSong sampleLib ⟨[], 1⟩ false
        ⟨0, "Muse", "Uprising", "09-14-2009", "", "nowhere"⟩).result
        = .error .invalidReleaseDate
    ∧ (Repository.UpdateSong sampleLib ⟨[], 1⟩ false 5 "Muse" "Uprising" "09-14-2009" ""
        "nowhere").result = .error .invalidReleaseDate :=
  ⟨by decide,
   (validation_order sampleLib ⟨[], 1⟩ false 5 0 "Muse" "Uprising" "09-14-2009" "" "nowhere"
      (by decide)).2.1 (by decide) (by decide) (by decide)⟩

/-- C8: update uses the same validation as creation. For every id > 0 and all
field values, the checks `UpdateSong` makes before its statement accept (the
`UPDATE` is sent) exactly when `ValidateSong` returns nil on the song with those
fields, and `UpdateSong` stops with failure `e` before any statement exactly when
`ValidateSong` returns `e`. -/
theorem update_validation_same_as_validate (lib : Lib) (db : Store) (fails : Bool)
    (songID i : Int) (g s d t l : String) (hid : 0 < songID) :
    (Repository.ValidateSong lib ⟨i, g, s, d, t, l⟩ = none ↔
      (Repository.UpdateSong lib db fails songID g s d t l).issued
        = [.update g s d t l songID])
    ∧ (∀ e : DbError, Repository.ValidateSong lib ⟨i, g, s, d, t, l⟩ = some e ↔
      ((Repository.UpdateSong lib db fails songID g s d t l).result = .error e
        ∧ (Repository.UpdateSong lib db fails songID g s d t l).issued = [])) := by
  rw [updateSong_eq lib db fails songID i g s d t l hid]
  cases hv : Repository.ValidateSong lib ⟨i, g, s, d, t, l⟩ with
  | none =>
    cases fails <;> simp [Store.Exec]
  | some e0 =>
    refine ⟨by simp, ?_⟩
    intro e
    constructor
    · intro he
      cases he
      simp
    · intro he
      have := he.1
      simp only [Except.error.injEq] at this
      rw [this]

/-- Instance of `update_validation_same_as_validate`: the well-formed song of
scenario A passes both validations. -/
theorem update_validation_same_as_validate_witness :
    (0 : Int) < 5
    ∧ (Repository.UpdateSong sampleLib ⟨[], 1⟩ false 5 "Muse" "Uprising" "2009-09-14" "la"
        "https://example.com/u").issued
        = [.update "Muse" "Uprising" "2009-09-14" "la" "https://example.com/u" 5] :=
  ⟨by decide,
   (update_validation_same_as_validate sampleLib ⟨[], 1⟩ false 5 0 "Muse" "Uprising"
      "2009-09-14" "la" "https://example.com/u" (by decide)).1.mp (by decide)⟩

/-- C2: a song with an empty group or song name, a rejected release date or a
rejected link makes `CreateSong` and `UpdateSong` (for every id) return a failure
without sending any statement, and the table is what it was before the call. -/
theorem invalid_song_not_written (lib : Lib) (db : Store) (fails : Bool) (songID i : Int)
    (g s d t l : String)
    (hbad : g = "" ∨ s = "" ∨ lib.timeParse d = false ∨ lib.parseRequestURI l = false) :
    (isError (Repository.CreateSong lib db fails ⟨i, g, s, d, t, l⟩).result = true
      ∧ (Repository.CreateSong lib db fails ⟨i, g, s, d, t, l⟩).issued = []
      ∧ (Repository.CreateSong lib db fails ⟨i, g, s, d, t, l⟩).db = db)
    ∧ (isError (Repository.UpdateSong lib db fails songID g s d t l).result = true
      ∧ (Repository.UpdateSong lib db fails songID g s d t l).issued = []
      ∧ (Repository.UpdateSong lib db fails songID g s d t l).db = db) := by
  have hv : ∃ e, Repository.ValidateSong lib ⟨i, g, s, d, t, l⟩ = some e := by
    unfold Repository.ValidateSong
    split_ifs with h1 h2 h3
    · exact ⟨_, rfl⟩
    · exact ⟨_, rfl⟩
    · exact ⟨_, rfl⟩
    · exfalso
      rcases hbad with h | h | h | h
      · exact h1 (Or.inl h)
      · exact h1 (Or.inr h)
      · exact h2 h
      · exact h3 h
  obtain ⟨e, he⟩ := hv
  constructor
  · simp [Repository.CreateSong, he, isError]
  · by_cases hid : songID ≤ 0
    · simp [Repository.UpdateSong, hid, isError]
    · rw [updateSong_eq lib db fails songID i g s d t l (not_le.mp hid), he]
      simp [isError]

/-- Instance of `invalid_song_not_written`: 30 February is no date, so neither
call touches a table holding one row. -/
theorem invalid_song_not_written_witness :
    (Repository.CreateSong sampleLib ⟨[⟨1, "Muse", "Uprising", "2009-09-14", "", "/u"⟩], 2⟩ false
        ⟨0, "Muse", "Resistance", "2009-02-30", "", "/r"⟩).db
      = ⟨[⟨1, "Muse", "Uprising", "2009-09-14", "", "/u"⟩], 2⟩
    ∧ (Repository.UpdateSong sampleLib ⟨[⟨1, "Muse", "Uprising", "2009-09-14", "", "/u"⟩], 2⟩
        false 1 "Muse" "Resistance" "2009-02-30" "" "/r").db
      = ⟨[⟨1, "Muse", "Uprising", "2009-09-14", "", "/u"⟩], 2⟩ :=
  have h := invalid_song_not_written sampleLib
    ⟨[⟨1, "Muse", "Uprising", "2009-09-14", "", "/u"⟩], 2⟩ false 1 0
    "Muse" "Resistance" "2009-02-30" "" "/r" (Or.inr (Or.inr (Or.inl (by decide))))
  ⟨h.1.2.2, h.2.2.2⟩

/-! ## The table under writes -/

theorem storeValid_apply_delete (lib : Lib) (db : Store) (songID : Int)
    (h : StoreValid lib db) : StoreValid lib (db.apply (.delete songID)) := by
  intro r hr
  simp only [Store.apply, List.mem_filter] at hr
  exact h r hr.1

theorem storeValid_apply_update (lib : Lib) (db : Store) (songID : Int) (g s d t l : String)
    (hg : g ≠ "") (hs : s ≠ "") (hd : lib.timeParse d = true)
    (hl : lib.parseRequestURI l = true) (h : StoreValid lib db) :
    StoreValid lib (db.apply (.update g s d t l songID)) := by
  intro r hr
  simp only [Store.apply, List.mem_map] at hr
  obtain ⟨r0, hr0, rfl⟩ := hr
  by_cases hid : r0.ID = songID
  · simp only [hid, if_true]
    exact ⟨hg, hs, hd, hl⟩
  · simp only [hid, if_false]
    exact h r0 hr0

theorem storeValid_apply_insert (lib : Lib) (db : Store) (g s d t l : String)
    (hg : g ≠ "") (hs : s ≠ "") (hd : lib.timeParse d = true)
    (hl : lib.parseRequestURI l = true) (h : StoreValid lib db) :
    StoreValid lib (db.apply (.insert g s d t l)) := by
  intro r hr
  simp only [Store.apply, List.mem_append, List.mem_singleton] at hr
  rcases hr with hr | rfl
  · exact h r hr
  · exact ⟨hg, hs, hd, hl⟩

/-- One write call keeps the table valid, whatever its arguments and whether or
not the server fails its statement. -/
theorem storeValid_run (lib : Lib) (db : Store) (fails : Bool) (op : WriteOp)
    (h : StoreValid lib db) : StoreValid lib (op.run lib db fails) := by
  cases op with
  | create song =>
    simp only [WriteOp.run, Repository.CreateSong, Repository.ValidateSong]
    split_ifs with h1 h2 h3
    · exact h
    · exact h
    · exact h
    · cases fails
      · simp only [Store.Exec, Bool.false_eq_true, if_false]
        push_neg at h1
        exact storeValid_apply_insert lib db _ _ _ _ _ h1.1 h1.2 (by simpa using h2)
          (by simpa using h3) h
      · exact h
  | update songID g s d t l =>
    simp only [WriteOp.run, Repository.UpdateSong]
    split_ifs with h0 h1 h2 h3
    · exact h
    · exact h
    · exact h
    · exact h
    · cases fails
      · simp only [Store.Exec, Bool.false_eq_true, if_false]
        push_neg at h1
        exact storeValid_apply_update lib db songID _ _ _ _ _ h1.1 h1.2 (by simpa using h2)
          (by simpa using h3) h
      · exact h
  | delete songID =>
    simp only [WriteOp.run, Repository.DeleteSong]
    split_ifs with h0
    · exact h
    · cases fails
      · simp only [Store.Exec, Bool.false_eq_true, if_false]
        exact storeValid_apply_delete lib db songID h
      · exact h

/-- C3: store invariant. From a table in which every row has a non-empty group
name and song name, a release date the date parser accepts and a link the URI
parser accepts, every sequence of `CreateSong`, `UpdateSong` and `DeleteSong`
calls, with arbitrary arguments and succeeding or failing statements, leaves a
table in which every row satisfies the same conditions. -/
theorem store_invariant (lib : Lib) (db : Store) (ops : List (WriteOp × Bool))
    (h : StoreValid lib db) : StoreValid lib (runWrites lib db ops) := by
  induction ops generalizing db with
  | nil => exact h
  | cons x rest ih =>
    obtain ⟨op, fails⟩ := x
    exact ih (op.run lib db fails) (storeValid_run lib db fails op h)

/-- Instance of `store_invariant`: an insert, a refused insert, an update, a
refused update and a delete from the empty table leave one valid row. -/
theorem store_invariant_witness :
    StoreValid sampleLib ⟨[], 1⟩
    ∧ StoreValid sampleLib (runWrites sampleLib ⟨[], 1⟩
        [(.create ⟨0, "Muse", "Uprising", "2009-09-14", "la", "https://example.com/u"⟩, false),
         (.create ⟨0, "", "Uprising", "2009-09-14", "la", "https://example.com/u"⟩, false),
         (.create ⟨0, "Muse", "Starlight", "2006-09-04", "", "/s"⟩, false),
         (.update 1 "Muse" "Uprising" "2009-09-07" "la la" "/u", false),
         (.update 2 "Muse" "Starlight" "yesterday" "" "/s", false),
         (.delete 2, false)])
    ∧ (runWrites sampleLib ⟨[], 1⟩
        [(.create ⟨0, "Muse", "Uprising", "2009-09-14", "la", "https://example.com/u"⟩, false),
         (.create ⟨0, "", "Uprising", "2009-09-14", "la", "https://example.com/u"⟩, false),
         (.create ⟨0, "Muse", "Starlight", "2006-09-04", "", "/s"⟩, false),
         (.update 1 "Muse" "Uprising" "2009-09-07" "la la" "/u", false),
         (.update 2 "Muse" "Starlight" "yesterday" "" "/s", false),
         (.delete 2, false)]).rows = [⟨1, "Muse", "Uprising", "2009-09-07", "la la", "/u"⟩] :=
  have h0 : StoreValid sampleLib ⟨[], 1⟩ := fun r hr => absurd hr (List.not_mem_nil r)
  ⟨h0, store_invariant sampleLib ⟨[], 1⟩ _ h0, by decide⟩

/-! ## Delete -/

theorem apply_delete_twice (db : Store) (songID : Int) :
    (db.apply (.delete songID)).apply (.delete songID) = db.apply (.delete songID) := by
  simp [Store.apply, List.filter_filter]

/-- C4: `DeleteSong` is idempotent. For every table and every positive id,
present or not, when the server fails neither statement, the second of two
successive `DeleteSong(id)` calls returns nil and leaves the table as the first
call left it; the same holds through the handler, whose second response is 200. -/
theorem deleteSong_idempotent (db : Store) (songID : Int) (hid : 0 < songID) :
    (Repository.DeleteSong (Repository.DeleteSong db false songID).db false songID).result
        = .ok ()
    ∧ (Repository.DeleteSong (Repository.DeleteSong db false songID).db false songID).db
        = (Repository.DeleteSong db false songID).db
    ∧ (∀ songIDStr : String, Atoi songIDStr = some songID →
        (Handler.DeleteSong (Handler.DeleteSong db false songIDStr).db false songIDStr).resp
            = ⟨200, .plain "Song deleted successfully"⟩
        ∧ (Handler.DeleteSong (Handler.DeleteSong db false songIDStr).db false songIDStr).db
            = (Handler.DeleteSong db false songIDStr).db) := by
  have h : ¬ songID ≤ 0 := not_le.mpr hid
  refine ⟨?_, ?_, ?_⟩
  · simp [Repository.DeleteSong, h, Store.Exec]
  · simp [Repository.DeleteSong, h, Store.Exec, apply_delete_twice]
  · intro songIDStr hs
    simp [Handler.DeleteSong, hs, Repository.DeleteSong, h, Store.Exec, apply_delete_twice]

/-- Instance of `deleteSong_idempotent`: deleting id 999999, which no row has,
twice from a one-row table. -/
theorem deleteSong_idempotent_witness :
    (0 : Int) < 999999
    ∧ (Repository.DeleteSong (Repository.DeleteSong
        ⟨[⟨1, "Muse", "Uprising", "2009-09-14", "", "/u"⟩], 2⟩ false 999999).db false
        999999).result = .ok () :=
  ⟨by decide,
   (deleteSong_idempotent ⟨[⟨1, "Muse", "Uprising", "2009-09-14", "", "/u"⟩], 2⟩ 999999
      (by decide)).1⟩

/-! ## Listing -/

theorem scanRows_clean (rows acc : List Song)
    (h : ∀ r ∈ rows, r.GroupName ≠ "" ∧ r.SongName ≠ "") :
    Repository.scanRows (rows.map some) acc = .ok (acc ++ rows) := by
  induction rows generalizing acc with
  | nil => simp [Repository.scanRows]
  | cons r rest ih =>
    have hr := h r (List.mem_cons_self r rest)
    have hrest : ∀ x ∈ rest, x.GroupName ≠ "" ∧ x.SongName ≠ "" :=
      fun x hx => h x (List.mem_cons_of_mem r hx)
    simp only [List.map_cons, Repository.scanRows]
    rw [if_neg (by push_neg; exact hr), ih (acc ++ [r]) hrest]
    simp

theorem scanRows_dirty (rows acc : List Song)
    (h : ∃ r ∈ rows, r.GroupName = "" ∨ r.SongName = "") :
    Repository.scanRows (rows.map some) acc = .error .invalidSongData := by
  induction rows generalizing acc with
  | nil =>
    obtain ⟨r, hr, _⟩ := h
    exact absurd hr (List.not_mem_nil r)
  | cons r rest ih =>
    simp only [List.map_cons, Repository.scanRows]
    by_cases hr : r.GroupName = "" ∨ r.SongName = ""
    · rw [if_pos hr]
    · rw [if_neg hr]
      apply ih
      obtain ⟨x, hx, hbad⟩ := h
      rcases List.mem_cons.mp hx with rfl | hx
      · exact absurd hbad hr
      · exact ⟨x, hx, hbad⟩

/-- C10: `GetSongs` of the repository is all-or-nothing. For every sequence of
rows the server returns and `Scan` decodes, if some row has an empty group name
or song name the call returns the data-integrity failure and no song, not even
the rows before the bad one; if no row has, it returns exactly the decoded rows
in the order the server returned them. -/
theorem getSongs_all_or_nothing (db : Store) (rows : List Song) (groupName songName : String)
    (limit offset : Int) :
    ((∃ r ∈ rows, r.GroupName = "" ∨ r.SongName = "") →
      (Repository.GetSongs db (.rows (rows.map some) false) groupName songName limit
        offset).result = .error .invalidSongData)
    ∧ ((∀ r ∈ rows, r.GroupName ≠ "" ∧ r.SongName ≠ "") →
      (Repository.GetSongs db (.rows (rows.map some) false) groupName songName limit
        offset).result = .ok rows) := by
  constructor
  · intro h
    simp [Repository.GetSongs, scanRows_dirty rows [] h]
  · intro h
    simp [Repository.GetSongs, scanRows_clean rows [] h]

/-- Instance of `getSongs_all_or_nothing`: a nameless third row discards the two
good rows before it. -/
theorem getSongs_all_or_nothing_witness :
    (Repository.GetSongs ⟨[], 1⟩ (.rows ([⟨1, "Muse", "Uprising", "2009-09-14", "", "/u"⟩,
        ⟨2, "Muse", "Starlight", "2006-09-04", "", "/s"⟩,
        ⟨3, "Muse", "", "2006-09-04", "", "/x"⟩].map some) false) "Muse" "" 10 0).result
      = .error .invalidSongData :=
  (getSongs_all_or_nothing ⟨[], 1⟩ [⟨1, "Muse", "Uprising", "2009-09-14", "", "/u"⟩,
      ⟨2, "Muse", "Starlight", "2006-09-04", "", "/s"⟩,
      ⟨3, "Muse", "", "2006-09-04", "", "/x"⟩] "Muse" "" 10 0).1
    ⟨⟨3, "Muse", "", "2006-09-04", "", "/x"⟩, by simp, Or.inr rfl⟩

/-! ## Handlers -/

theorem getSongs_pass (db : Store) (reply : QueryReply) (g s limitStr offsetStr : String)
    (hg : ¬ (g ≠ "" ∧ len g < 3)) (hs : ¬ (s ≠ "" ∧ len s < 3)) :
    ∃ (limit offset : Int) (failed : Bool),
      (Handler.GetSongs db reply g s limitStr offsetStr).calls
          = [.repoGetSongs g s limit offset failed]
      ∧ ((Handler.GetSongs db reply g s limitStr offsetStr).resp.status = 200
        ∨ (Handler.GetSongs db reply g s limitStr offsetStr).resp.status = 500)
      ∧ (failed = true → (Handler.GetSongs db reply g s limitStr offsetStr).resp.status = 500)
      ∧ limit = (match Atoi limitStr with
          | none => 10
          | some limit => if limit ≤ 0 then 10 else limit)
      ∧ offset = (match Atoi offsetStr with
          | none => 0
          | some offset => if offset < 0 then 0 else offset) := by
  simp only [Handler.GetSongs, if_neg hg, if_neg hs]
  split
  · next e he =>
    refine ⟨_, _, _, rfl, Or.inr rfl, fun _ => rfl, rfl, rfl⟩
  · next songs he =>
    refine ⟨_, _, _, rfl, Or.inl rfl, ?_, rfl, rfl⟩
    rw [he]
    simp [isError]

/-- C5: a `group` or `song` filter that is non-empty and has fewer than 3
characters is to be rejected with status 400 without calling the repository.
Evaluated on the two-character filter `éé` and on the one-character filter `日`,
`GetSongs` answers 200 and calls the repository: Go `len` counts the 4 and 3
bytes of their encodings, not their characters. -/
theorem short_filter_not_rejected :
    "éé" ≠ "" ∧ "éé".length = 2 ∧ len "éé" = 4
    ∧ (Handler.GetSongs ⟨[], 1⟩ (.rows [] false) "éé" "" "" "").resp.status = 200
    ∧ (Handler.GetSongs ⟨[], 1⟩ (.rows [] false) "éé" "" "" "").calls
        = [.repoGetSongs "éé" "" 10 0 false]
    ∧ "日" ≠ "" ∧ "日".length = 1 ∧ len "日" = 3
    ∧ (Handler.GetSongs ⟨[], 1⟩ (.rows [] false) "" "日" "" "").resp.status = 200
    ∧ (Handler.GetSongs ⟨[], 1⟩ (.rows [] false) "" "日" "" "").calls
        = [.repoGetSongs "" "日" 10 0 false] := by
  decide

/-- The length check of `GetSongs` as the code performs it, on bytes: a filter
that is non-empty and whose encoding has 1 or 2 bytes is answered 400 with no
repository call; when each filter is empty or has at least 3 bytes, which every
filter of at least 3 characters has, the response is not 400 and the repository
is called once with the two filters. -/
theorem getSongs_filter_check (db : Store) (reply : QueryReply)
    (g s limitStr offsetStr : String) :
    ((g ≠ "" ∧ len g < 3) ∨ (s ≠ "" ∧ len s < 3) →
      (Handler.GetSongs db reply g s limitStr offsetStr).resp.status = 400
      ∧ (Handler.GetSongs db reply g s limitStr offsetStr).calls = [])
    ∧ ((g = "" ∨ 3 ≤ len g) → (s = "" ∨ 3 ≤ len s) →
      (Handler.GetSongs db reply g s limitStr offsetStr).resp.status ≠ 400
      ∧ ∃ (limit offset : Int) (failed : Bool),
          (Handler.GetSongs db reply g s limitStr offsetStr).calls
            = [.repoGetSongs g s limit offset failed])
    ∧ ((g = "" ∨ 3 ≤ g.length) → (s = "" ∨ 3 ≤ s.length) →
      (Handler.GetSongs db reply g s limitStr offsetStr).resp.status ≠ 400) := by
  have pass : ∀ (hg : g = "" ∨ 3 ≤ len g) (hs : s = "" ∨ 3 ≤ len s),
      (Handler.GetSongs db reply g s limitStr offsetStr).resp.status ≠ 400
      ∧ ∃ (limit offset : Int) (failed : Bool),
          (Handler.GetSongs db reply g s limitStr offsetStr).calls
            = [.repoGetSongs g s limit offset failed] := by
    intro hg hs
    have hg' : ¬ (g ≠ "" ∧ len g < 3) := by
      rintro ⟨h1, h2⟩
      rcases hg with h | h
      · exact h1 h
      · omega
    have hs' : ¬ (s ≠ "" ∧ len s < 3) := by
      rintro ⟨h1, h2⟩
      rcases hs with h | h
      · exact h1 h
      · omega
    obtain ⟨limit, offset, failed, hc, hst, _⟩ :=
      getSongs_pass db reply g s limitStr offsetStr hg' hs'
    refine ⟨?_, limit, offset, failed, hc⟩
    rcases hst with h | h <;> rw [h] <;> decide
  refine ⟨?_, pass, ?_⟩
  · intro h
    by_cases hg : g ≠ "" ∧ len g < 3
    · simp only [Handler.GetSongs, if_pos hg, httpError, and_self]
    · have hs : s ≠ "" ∧ len s < 3 := h.resolve_left hg
      simp only [Handler.GetSongs, if_neg hg, if_pos hs, httpError, and_self]
  · intro hg hs
    have hlg := length_le_len g
    have hls := length_le_len s
    exact (pass (hg.imp id (fun h => le_trans h hlg)) (hs.imp id (fun h => le_trans h hls))).1

/-- C6 (as stated, refuted): the `limit` string 9223372036854775808 is an
integer and is positive, yet `GetSongs` passes limit 10 to the repository, not
that integer, because `Atoi` reports a range error; the same string as `offset`
makes it pass offset 0. -/
theorem limit_offset_counterexample :
    DenotesInt "9223372036854775808" 9223372036854775808
    ∧ (0 : Int) < 9223372036854775808
    ∧ (Handler.GetSongs ⟨[], 1⟩ (.rows [] false) "" "" "9223372036854775808"
        "9223372036854775808").calls = [.repoGetSongs "" "" 10 0 false] :=
  ⟨⟨"9223372036854775808".data, by decide, by decide, Or.inl ⟨rfl, by decide⟩⟩,
   by decide, by decide⟩

/-- C6 (amended): in `GetSongs`, every call to the repository carries as limit 10
when the `limit` string is missing (empty), is not an integer (an optional sign
and one or more decimal digits), is an integer that is not positive, or is an
integer of 2^63 or more, and the integer it denotes otherwise; as offset 0 when
the `offset` string is missing, is not an integer, is a negative integer, or is
an integer of 2^63 or more, and the integer it denotes otherwise. Hence the
repository is only ever called with limit >= 1 and offset >= 0, and it is called
whenever the filters pass. -/
theorem getSongs_limit_offset (db : Store) (reply : QueryReply)
    (g s limitStr offsetStr : String) :
    (¬ ∃ v, DenotesInt "" v)
    ∧ (∀ c ∈ (Handler.GetSongs db reply g s limitStr offsetStr).calls,
        ∃ (limit offset : Int) (failed : Bool),
          c = .repoGetSongs g s limit offset failed
          ∧ ((¬ ∃ v, DenotesInt limitStr v) → limit = 10)
          ∧ (∀ v : Int, DenotesInt limitStr v → v ≤ 0 → limit = 10)
          ∧ (∀ v : Int, DenotesInt limitStr v → 2 ^ 63 ≤ v → limit = 10)
          ∧ (∀ v : Int, DenotesInt limitStr v → 0 < v → v < 2 ^ 63 → limit = v)
          ∧ ((¬ ∃ v, DenotesInt offsetStr v) → offset = 0)
          ∧ (∀ v : Int, DenotesInt offsetStr v → v < 0 → offset = 0)
          ∧ (∀ v : Int, DenotesInt offsetStr v → 2 ^ 63 ≤ v → offset = 0)
          ∧ (∀ v : Int, DenotesInt offsetStr v → 0 ≤ v → v < 2 ^ 63 → offset = v)
          ∧ 1 ≤ limit ∧ 0 ≤ offset)
    ∧ ((g = "" ∨ 3 ≤ len g) → (s = "" ∨ 3 ≤ len s) →
        (Handler.GetSongs db reply g s limitStr offsetStr).calls ≠ []) := by
  refine ⟨?_, ?_, ?_⟩
  · rintro ⟨v, ds, hne, _, h⟩
    have e : "".data = ([] : List Char) := rfl
    rw [e] at h
    rcases h with ⟨a, _⟩ | ⟨a, _⟩ | ⟨a, _⟩
    · exact hne a.symm
    · exact absurd a (by simp)
    · exact absurd a (by simp)
  · intro c hc
    by_cases hg : g ≠ "" ∧ len g < 3
    · simp [Handler.GetSongs, if_pos hg] at hc
    · by_cases hs : s ≠ "" ∧ len s < 3
      · simp [Handler.GetSongs, if_neg hg, if_pos hs] at hc
      · obtain ⟨limit, offset, failed, hcalls, _, _, hl, ho⟩ :=
          getSongs_pass db reply g s limitStr offsetStr hg hs
        rw [hcalls, List.mem_singleton] at hc
        obtain ⟨l1, l2, l3, l4⟩ := limit_of_atoi limitStr
        obtain ⟨o1, o2, o3, o4⟩ := offset_of_atoi offsetStr
        rw [← hl] at l1 l2 l3 l4
        rw [← ho] at o1 o2 o3 o4
        refine ⟨limit, offset, failed, hc, l1, l2, l3, l4, o1, o2, o3, o4, ?_, ?_⟩
        · rw [hl]
          cases Atoi limitStr with
          | none => decide
          | some n =>
            by_cases hn : n ≤ 0
            · simp [hn]
            · simp only [hn, if_false]; omega
        · rw [ho]
          cases Atoi offsetStr with
          | none => decide
          | some n =>
            by_cases hn : n < 0
            · simp [hn]
            · simp only [hn, if_false]; omega
  · intro hg hs
    have hg' : ¬ (g ≠ "" ∧ len g < 3) := by
      rintro ⟨h1, h2⟩
      rcases hg with h | h
      · exact h1 h
      · omega
    have hs' : ¬ (s ≠ "" ∧ len s < 3) := by
      rintro ⟨h1, h2⟩
      rcases hs with h | h
      · exact h1 h
      · omega
    obtain ⟨limit, offset, failed, hcalls, _⟩ :=
      getSongs_pass db reply g s limitStr offsetStr hg' hs'
    rw [hcalls]
    simp

/-- C7 (as stated, refuted): for the request of scenario A the lookup service
returns a decodable detail set and the resulting song passes validation, yet the
server fails the `INSERT` and `AddSong` answers 500, not 201. -/
theorem addSong_iff_counterexample :
    3 ≤ "Muse".length ∧ 3 ≤ "Uprising".length
    ∧ SwaggerClient.FetchSongDetails
        (.response 200 (some ⟨"2009-09-14", "la", "https://example.com/u"⟩)) "Muse" "Uprising"
        = .ok ⟨"2009-09-14", "la", "https://example.com/u"⟩
    ∧ Repository.ValidateSong sampleLib
        ⟨0, "Muse", "Uprising", "2009-09-14", "la", "https://example.com/u"⟩ = none
    ∧ (Handler.AddSong sampleLib ⟨[], 1⟩
        (.response 200 (some ⟨"2009-09-14", "la", "https://example.com/u"⟩)) true
        (some ⟨"Muse", "Uprising"⟩)).resp.status = 500 :=
  ⟨by decide, by decide, rfl, by decide, by decide⟩

/-- C7 (amended): for every create request whose body decodes to a (group, song)
pair with each field at least 3 characters long, `AddSong` responds 201 if and
only if the lookup client returns a decodable detail set, the song built from
group, song and the returned release date, text and link passes validation, and
the server does not fail the `INSERT`. -/
theorem addSong_created_iff (lib : Lib) (db : Store) (http : HttpReply) (fails : Bool)
    (input : AddSongRequest) (hg : 3 ≤ input.Group.length) (hs : 3 ≤ input.Song.length) :
    (Handler.AddSong lib db http fails (some input)).resp.status = 201 ↔
      ((∃ details : SongDetail,
          SwaggerClient.FetchSongDetails http input.Group input.Song = .ok details
          ∧ Repository.ValidateSong lib
              ⟨0, input.Group, input.Song, details.ReleaseDate, details.Text, details.Link⟩
              = none)
        ∧ fails = false) := by
  have hlg := length_le_len input.Group
  have hls := length_le_len input.Song
  have hlen : ¬ (len input.Group < 3 ∨ len input.Song < 3) := by omega
  simp only [Handler.AddSong, if_neg hlen]
  cases hf : SwaggerClient.FetchSongDetails http input.Group input.Song with
  | error e => simp [httpError]
  | ok details =>
    simp only [Repository.CreateSong, Except.ok.injEq, exists_eq_left']
    cases hv : Repository.ValidateSong lib
        ⟨0, input.Group, input.Song, details.ReleaseDate, details.Text, details.Link⟩ with
    | some e => simp [httpError]
    | none =>
      cases fails <;> simp [Store.Exec, httpError]

/-- Instance of `addSong_created_iff`: scenario A answers 201 when the server
accepts the `INSERT`. -/
theorem addSong_created_iff_witness :
    3 ≤ "Muse".length ∧ 3 ≤ "Uprising".length
    ∧ (Handler.AddSong sampleLib ⟨[], 1⟩
        (.response 200 (some ⟨"2009-09-14", "la", "https://example.com/u"⟩)) false
        (some ⟨"Muse", "Uprising"⟩)).resp.status = 201 :=
  ⟨by decide, by decide,
   (addSong_created_iff sampleLib ⟨[], 1⟩
      (.response 200 (some ⟨"2009-09-14", "la", "https://example.com/u"⟩)) false
      ⟨"Muse", "Uprising"⟩ (by decide) (by decide)).mpr
      ⟨⟨⟨"2009-09-14", "la", "https://example.com/u"⟩, rfl, by decide⟩, rfl⟩⟩

theorem getSongs_disciplined (db : Store) (reply : QueryReply)
    (g s limitStr offsetStr : String) :
    (Handler.GetSongs db reply g s limitStr offsetStr).Disciplined := by
  by_cases hg : g ≠ "" ∧ len g < 3
  · simp [Handled.Disciplined, Handler.GetSongs, if_pos hg]
  · by_cases hs : s ≠ "" ∧ len s < 3
    · simp [Handled.Disciplined, Handler.GetSongs, if_neg hg, if_pos hs]
    · obtain ⟨limit, offset, failed, hcalls, hst, hfail, _⟩ :=
        getSongs_pass db reply g s limitStr offsetStr hg hs
      constructor
      · intro h400
        rcases hst with h | h <;> rw [h] at h400 <;> exact absurd h400 (by decide)
      · intro c hc hf
        rw [hcalls, List.mem_singleton] at hc
        subst hc
        exact hfail hf

theorem getSongText_disciplined (db : Store) (reply : RowReply) (songIDStr : String) :
    (Handler.GetSongText db reply songIDStr).Disciplined := by
  unfold Handler.GetSongText
  cases Atoi songIDStr with
  | none => simp [Handled.Disciplined]
  | some songID =>
    by_cases hid : songID ≤ 0
    · simp [Handled.Disciplined, hid]
    · cases reply <;>
        simp [Handled.Disciplined, hid, Repository.GetSongText, httpError, isError, Call.failed]

theorem deleteSong_disciplined (db : Store) (fails : Bool) (songIDStr : String) :
    (Handler.DeleteSong db fails songIDStr).Disciplined := by
  unfold Handler.DeleteSong
  cases Atoi songIDStr with
  | none => simp [Handled.Disciplined]
  | some songID =>
    by_cases hid : songID ≤ 0
    · simp [Handled.Disciplined, hid]
    · cases fails <;>
        simp [Handled.Disciplined, hid, Repository.DeleteSong, Store.Exec, httpError, isError,
          Call.failed]

theorem updateSong_disciplined (lib : Lib) (db : Store) (fails : Bool) (songIDStr : String)
    (body : Option Song) : (Handler.UpdateSong lib db fails songIDStr body).Disciplined := by
  unfold Handler.UpdateSong
  cases Atoi songIDStr with
  | none => simp [Handled.Disciplined]
  | some songID =>
    by_cases hid : songID ≤ 0
    · simp [Handled.Disciplined, hid]
    · cases body with
      | none => simp [Handled.Disciplined, hid]
      | some song =>
        simp only [hid, if_false]
        cases hr : (Repository.UpdateSong lib db fails songID song.GroupName song.SongName
            song.ReleaseDate song.Text song.Link).result with
        | error e => simp [Handled.Disciplined, httpError]
        | ok u => simp [Handled.Disciplined, isError, Call.failed]

theorem addSong_disciplined (lib : Lib) (db : Store) (http : HttpReply) (fails : Bool)
    (body : Option AddSongRequest) : (Handler.AddSong lib db http fails body).Disciplined := by
  unfold Handler.AddSong
  cases body with
  | none => simp [Handled.Disciplined]
  | some input =>
    by_cases hlen : len input.Group < 3 ∨ len input.Song < 3
    · simp [Handled.Disciplined, hlen]
    · simp only [hlen, if_false]
      cases hf : SwaggerClient.FetchSongDetails http input.Group input.Song with
      | error e => simp [Handled.Disciplined, httpError]
      | ok details =>
        simp only []
        cases hr : (Repository.CreateSong lib db fails
            ⟨0, input.Group, input.Song, details.ReleaseDate, details.Text,
              details.Link⟩).result with
        | error e => simp [Handled.Disciplined, httpError]
        | ok u => simp [Handled.Disciplined, isError, Call.failed]

/-- C9: for each of the five handlers and every request, a 400 response means
that neither the repository nor the lookup client was called while handling it,
and any call to the repository or the lookup client that returned a failure
(a validation failure and a not-found included) means a 500 response. -/
theorem handlers_status_discipline :
    (∀ (db : Store) (reply : QueryReply) (g s limitStr offsetStr : String),
      (Handler.GetSongs db reply g s limitStr offsetStr).Disciplined)
    ∧ (∀ (db : Store) (reply : RowReply) (songIDStr : String),
      (Handler.GetSongText db reply songIDStr).Disciplined)
    ∧ (∀ (db : Store) (fails : Bool) (songIDStr : String),
      (Handler.DeleteSong db fails songIDStr).Disciplined)
    ∧ (∀ (lib : Lib) (db : Store) (fails : Bool) (songIDStr : String) (body : Option Song),
      (Handler.UpdateSong lib db fails songIDStr body).Disciplined)
    ∧ (∀ (lib : Lib) (db : Store) (http : HttpReply) (fails : Bool)
        (body : Option AddSongRequest),
      (Handler.AddSong lib db http fails body).Disciplined) :=
  ⟨getSongs_disciplined, getSongText_disciplined, deleteSong_disciplined,
   updateSong_disciplined, addSong_disciplined⟩

/-- Instance of `handlers_status_discipline`, scenario C: `PUT /songs/5` with a
month-first release date makes one repository call, which fails validation, and
the response is 500. -/
theorem handlers_status_discipline_witness :
    (Handler.UpdateSong sampleLib ⟨[], 1⟩ false "5"
        (some ⟨0, "Muse", "Uprising", "09-14-2009", "la", "https://example.com/u"⟩)).calls
      = [.repoUpdateSong 5 "Muse" "Uprising" "09-14-2009" "la" "https://example.com/u" true]
    ∧ (Handler.UpdateSong sampleLib ⟨[], 1⟩ false "5"
        (some ⟨0, "Muse", "Uprising", "09-14-2009", "la", "https://example.com/u"⟩)).resp.status
      = 500 :=
  ⟨by decide,
   (handlers_status_discipline.2.2.2.1 sampleLib ⟨[], 1⟩ false "5"
      (some ⟨0, "Muse", "Uprising", "09-14-2009", "la", "https://example.com/u"⟩)).2
      (.repoUpdateSong 5 "Muse" "Uprising" "09-14-2009" "la" "https://example.com/u" true)
      (by decide) rfl⟩

/-- Instance of `getSongs_limit_offset`: `limit=7` and `offset=3` reach the
repository as 7 and 3; a negative limit and a non-numeric offset reach it as the
defaults 10 and 0. -/
theorem getSongs_limit_offset_witness :
    (∀ c ∈ (Handler.GetSongs ⟨[], 1⟩ (.rows [] false) "" "Uprising" "7" "3").calls,
      ∃ failed : Bool, c = .repoGetSongs "" "Uprising" 7 3 failed)
    ∧ (Handler.GetSongs ⟨[], 1⟩ (.rows [] false) "" "Uprising" "7" "3").calls
        = [.repoGetSongs "" "Uprising" 7 3 false]
    ∧ (Handler.GetSongs ⟨[], 1⟩ (.rows [] false) "" "Uprising" "+25" "0").calls
        = [.repoGetSongs "" "Uprising" 25 0 false]
    ∧ (Handler.GetSongs ⟨[], 1⟩ (.rows [] false) "" "Uprising" "-3" "abc").calls
        = [.repoGetSongs "" "Uprising" 10 0 false] := by
  refine ⟨?_, by decide, by decide, by decide⟩
  intro c hc
  obtain ⟨limit, offset, failed, hcall, _, _, _, hl, _, _, _, ho, _, _⟩ :=
    (getSongs_limit_offset ⟨[], 1⟩ (.rows [] false) "" "Uprising" "7" "3").2.1 c hc
  have h7 : DenotesInt "7" 7 := ⟨"7".data, by decide, by decide, Or.inl ⟨rfl, by decide⟩⟩
  have h3 : DenotesInt "3" 3 := ⟨"3".data, by decide, by decide, Or.inl ⟨rfl, by decide⟩⟩
  rw [hl 7 h7 (by decide) (by decide), ho 3 h3 (by decide) (by decide)] at hcall
  exact ⟨failed, hcall⟩

end MusicLib
